import Mathlib

/-!
Shallow embedding of `src/repr.rs` of the `thin_trait_object` code generator.

`generate_repr` (and its helper `generate_vtable_and_thunks`) build, from a
stash of names and vtable items, the emitted definition bundle: the
`#[repr(C)]` representation struct, the vtable constant with its ordered slot
assignments, the constructor, the destructor, and one forwarding thunk per
method.  The Rust source manipulates token streams; here the emitted code is
modelled as structured syntax (`RTy`, `RExpr`, `Signature`, `FnDef`, ...),
with a separate token-serialization function (`emittedCallArgTokens`) where a
claim is about the exact tokens the `quote!` interpolation produces.

Items from files of this repository that are not under `src/` (`attr.rs`,
`vtable.rs`) are modelled from the spec and marked as such in their doc
comments.
-/

namespace ThinTraitObject

/-- Types appearing in the generated code. `named s` is a plain type name
(the vtable type, a method parameter type, ...); `refStatic s` is the
reference-to-static type the shared mode uses for the vtable field
(`&'static s` in the Rust output); `ptrMutCVoid` is the erased pointer type
`*mut ::core::ffi::c_void`; `ptrMut s` is `*mut s`; `ptrMutRepr s` is
`*mut s<__ThinTraitObjectMacro_ReprGeneric0>` (pointer to the representation
struct); `generic` is the payload type parameter; `unit` is the empty return
type. -/
inductive RTy where
  | named (s : String)
  | refStatic (s : String)
  | ptrMutCVoid
  | ptrMut (s : String)
  | ptrMutRepr (s : String)
  | generic
  | unit
deriving DecidableEq, Repr

/-- Modelled from the spec: a vtable function argument (`VtableFnArg`,
defined in `vtable.rs`, which is not under `src/`): a parameter with an
optional name and a type.  Per the spec the interface description supplies
the parameter list "excluding implicit naming", so non-receiver parameters
normally carry no name. -/
structure VtableFnArg where
  name : Option String
  ty : RTy
deriving DecidableEq, Repr

/-- A bare-function argument as emitted (`syn::BareFnArg`): optional name
plus type.  When the name is present, its token serialization is
`name : type`. -/
structure BareFnArg where
  name : Option String
  ty : RTy
deriving DecidableEq, Repr

/-- Modelled from the spec: one vtable entry (`VtableItem`, defined in
`vtable.rs`, not under `src/`): method name, ordered inputs whose first
element is the receiver, return type, calling-convention annotation and the
`unsafe` marker of the signature. -/
structure VtableItem where
  name : String
  inputs : List VtableFnArg
  output : RTy
  abi : Option String
  unsafety : Bool
deriving DecidableEq, Repr

/-- Modelled from the spec: `VtableItem::make_raw` (from `vtable.rs`, not
under `src/`) rewrites the receiver (first) parameter's type to the erased
pointer type, making the signature type-erasure-safe. -/
def VtableItem.make_raw (e : VtableItem) : VtableItem :=
  { e with
    inputs :=
      match e.inputs with
      | [] => []
      | r :: rest => { r with ty := RTy.ptrMutCVoid } :: rest }

/-- Modelled from the spec: `VtableItem::make_unsafe` (from `vtable.rs`, not
under `src/`) marks the signature with the `unsafe` qualifier. -/
def VtableItem.make_unsafe (e : VtableItem) : VtableItem :=
  { e with unsafety := true }

/-- Modelled from the spec: `VtableFnArg::into_bare_arg_with_ptr_receiver`
(from `vtable.rs`, not under `src/`) converts a vtable argument into a bare
function argument; the receiver would become an erased pointer, and a
non-receiver argument keeps its name and type unchanged.  In `repr.rs` it is
only ever applied to non-receiver arguments (after `skip(1)`). -/
def VtableFnArg.into_bare_arg_with_ptr_receiver (a : VtableFnArg) : BareFnArg :=
  { name := a.name, ty := a.ty }

/-- A function signature of the generated code (`syn::Signature`): name,
`unsafe` marker, calling-convention annotation, named inputs and the return
type. -/
structure Signature where
  ident : String
  unsafety : Bool
  abi : Option String
  inputs : List BareFnArg
  output : RTy
deriving DecidableEq, Repr

/-- `nth_arg` from `repr.rs`: the deterministic positional parameter name. -/
def nth_arg (n : Nat) : String :=
  "__thintraitobjectmacro_arg" ++ toString n

/-- Modelled from the spec: `VtableItem::into_signature` (from `vtable.rs`,
not under `src/`) turns a vtable item into a function signature, renaming
every parameter positionally with the supplied naming function (the receiver
is position 0, the k non-receiver parameters positions 1..k), keeping types,
calling convention, `unsafe` marker and return type unchanged. -/
def VtableItem.into_signature (e : VtableItem) (nth : Nat → String) : Signature :=
  { ident := e.name
    unsafety := e.unsafety
    abi := e.abi
    inputs := e.inputs.enum.map (fun p => { name := some (nth p.1), ty := p.2.ty })
    output := e.output }

/-- `to_nth_thunk_arg` from `repr.rs`: transforms a `VtableFnArg` into an
argument of a thunk, giving it the `n`-th positional name when it has none. -/
def to_nth_thunk_arg (arg : VtableFnArg) (n : Nat) : BareFnArg :=
  let a := arg.into_bare_arg_with_ptr_receiver
  { a with name := some (a.name.getD (nth_arg n)) }

/-- Expressions of the generated code, covering exactly the shapes `repr.rs`
emits. `selfConstVtable` is `Self::__THINTRAITOBJECTMACRO_VTABLE`;
`pathCall p f a` is `p::f(a)`; `castTo e t` is `e as t`; `castInfer e` is
`e as *mut _`; `letWild e` is `let _ = e;`;
`payloadMethodCall r m args` is
`r.__thintraitobjectmacro_repr_value.m(<args>)` where `<args>` is the
`#(#thunk_call_args)*` interpolation of the bare-function arguments. -/
inductive RExpr where
  | var (s : String)
  | selfConstVtable
  | ref (e : RExpr)
  | structLit (vtableInit : RExpr) (valueInit : RExpr)
  | pathCall (path : String) (fn : String) (arg : RExpr)
  | castTo (e : RExpr) (t : RTy)
  | castInfer (e : RExpr)
  | letWild (e : RExpr)
  | derefPtr (e : RExpr)
  | payloadMethodCall (recv : RExpr) (method : String) (args : List BareFnArg)
deriving DecidableEq, Repr

/-- Number of calls `p::fn(..)` contained in an expression, for the given
path `p` and function name `fn`. -/
def RExpr.countCalls (p fn : String) : RExpr → Nat
  | .var _ => 0
  | .selfConstVtable => 0
  | .ref e => e.countCalls p fn
  | .structLit a b => a.countCalls p fn + b.countCalls p fn
  | .pathCall q g a => (if q = p ∧ g = fn then 1 else 0) + a.countCalls p fn
  | .castTo e _ => e.countCalls p fn
  | .castInfer e => e.countCalls p fn
  | .letWild e => e.countCalls p fn
  | .derefPtr e => e.countCalls p fn
  | .payloadMethodCall r _ _ => r.countCalls p fn

/-- Number of calls `q::fn(..)` contained in an expression, for any path `q`
and the given function name `fn`. -/
def RExpr.countCallsNamed (fn : String) : RExpr → Nat
  | .var _ => 0
  | .selfConstVtable => 0
  | .ref e => e.countCallsNamed fn
  | .structLit a b => a.countCallsNamed fn + b.countCallsNamed fn
  | .pathCall _ g a => (if g = fn then 1 else 0) + a.countCallsNamed fn
  | .castTo e _ => e.countCallsNamed fn
  | .castInfer e => e.countCallsNamed fn
  | .letWild e => e.countCallsNamed fn
  | .derefPtr e => e.countCallsNamed fn
  | .payloadMethodCall r _ _ => r.countCallsNamed fn

/-- Whether an expression contains a cast of a pointer to the concrete
representation type (`as *mut Repr<Generic>`), i.e. reinterprets the erased
handle pointer. -/
def RExpr.mentionsReprCast : RExpr → Bool
  | .var _ => false
  | .selfConstVtable => false
  | .ref e => e.mentionsReprCast
  | .structLit a b => a.mentionsReprCast || b.mentionsReprCast
  | .pathCall _ _ a => a.mentionsReprCast
  | .castTo e t =>
      (match t with | .ptrMutRepr _ => true | _ => false) || e.mentionsReprCast
  | .castInfer e => e.mentionsReprCast
  | .letWild e => e.mentionsReprCast
  | .derefPtr e => e.mentionsReprCast
  | .payloadMethodCall r _ _ => r.mentionsReprCast

/-- A generated function: signature plus body. -/
structure FnDef extends Signature where
  body : RExpr
deriving DecidableEq, Repr

/-- A field of the generated representation struct. -/
structure FieldDef where
  name : String
  ty : RTy
deriving DecidableEq, Repr

/-- The generated `#[repr(C)]` representation struct definition. -/
structure StructDef where
  reprC : Bool
  name : String
  genericParam : String
  genericBound : String
  fields : List FieldDef
deriving DecidableEq, Repr

/-- The generated associated constant holding the vtable instance:
its name, the vtable type, and the ordered slot assignments of its
struct-literal value (slot field name, assigned `Self::`-function name). -/
structure ConstDef where
  name : String
  ty : String
  slots : List (String × String)
deriving DecidableEq, Repr

/-- One item of the generated `impl` block: either the vtable constant
(an immutable Rust `const` item) or a function. -/
inductive ImplItem where
  | constItem (c : ConstDef)
  | fnItem (f : FnDef)
deriving DecidableEq, Repr

/-- The emitted definition bundle `generate_repr` returns: the
representation struct and, in emission order, the contents of its `impl`
block (vtable constant, constructor, destructor, thunks). -/
structure ReprEmission where
  structDef : StructDef
  vtableConst : ConstDef
  ctorFn : FnDef
  dropFn : FnDef
  thunks : List FnDef
deriving DecidableEq, Repr

/-- The `impl`-block items in the order the `quote!` block of
`generate_repr` emits them: the vtable constant, then the constructor, then
the destructor, then the thunk methods. -/
def ReprEmission.implItems (em : ReprEmission) : List ImplItem :=
  ImplItem.constItem em.vtableConst ::
    ImplItem.fnItem em.ctorFn ::
      ImplItem.fnItem em.dropFn :: em.thunks.map ImplItem.fnItem

/-- The generated functions of the `impl` block, in emission order. -/
def ReprEmission.fnItems (em : ReprEmission) : List FnDef :=
  em.implItems.filterMap (fun i =>
    match i with
    | .fnItem f => some f
    | .constItem _ => none)

/-- The constant items of the `impl` block. -/
def ReprEmission.constItems (em : ReprEmission) : List ConstDef :=
  em.implItems.filterMap (fun i =>
    match i with
    | .constItem c => some c
    | .fnItem _ => none)

/-- Fixed generated names used by `repr.rs` (string literals of its
`quote!` blocks). -/
def vtable_field_name : String := "__thintraitobjectmacro_repr_vtable"

/-- Name of the payload field of the representation struct. -/
def value_field_name : String := "__thintraitobjectmacro_repr_value"

/-- Name of the payload type parameter of the representation struct. -/
def repr_generic_name : String := "__ThinTraitObjectMacro_ReprGeneric0"

/-- Name of the associated vtable constant. -/
def vtable_const_name : String := "__THINTRAITOBJECTMACRO_VTABLE"

/-- Name of the generated constructor. -/
def create_fn_name : String := "__thintraitobjectmacro_repr_create"

/-- Name of the generated destructor. -/
def drop_fn_name : String := "__thintraitobjectmacro_repr_drop"

/-- The thunk name `format_ident!("__thintraitobjectmacro_thunk_{}", name)`. -/
def thunk_name_of (s : String) : String := "__thintraitobjectmacro_thunk_" ++ s

/-- `repr_name_from_trait_name` from `repr.rs`. -/
def repr_name_from_trait_name (trait_name : String) : String :=
  "__ThinTraitObjectMacro_ReprFor" ++ trait_name

/-- Modelled from the spec: the fields of `StageStash` (defined in
`attr.rs`, not under `src/`) that `generate_repr` destructures: the names of
the representation type, the vtable type and the trait, and the ordered
vtable items supplied by the earlier stages. -/
structure StageStash where
  repr_name : String
  vtable_name : String
  trait_name : String
  vtable_items : List VtableItem
deriving DecidableEq, Repr

/-- The loop body of `generate_vtable_and_thunks` for one vtable entry:
applies `make_raw` and `make_unsafe`, builds the positional thunk call
arguments from the non-receiver inputs (counter starting at 1), the slot
assignment `name: Self::thunk_name`, and the thunk function whose signature
is `into_signature(nth_arg)` with its name replaced by the thunk name and
whose body is
`(*(arg0 as *mut Repr<Generic>)).__thintraitobjectmacro_repr_value.name(args)`. -/
def thunkStep (repr_name : String) (entry0 : VtableItem) :
    (String × String) × FnDef :=
  let entry := entry0.make_raw.make_unsafe
  let thunk_call_args :=
    (entry.inputs.drop 1).enum.map (fun p => to_nth_thunk_arg p.2 (p.1 + 1))
  let name := entry.name
  let thunk_name := thunk_name_of entry.name
  let thunk_signature := { entry.into_signature nth_arg with ident := thunk_name }
  ((name, thunk_name),
   { thunk_signature with
     body :=
       RExpr.payloadMethodCall
         (RExpr.derefPtr
           (RExpr.castTo (RExpr.var (nth_arg 0)) (RTy.ptrMutRepr repr_name)))
         name thunk_call_args })

/-- `generate_vtable_and_thunks` from `repr.rs`: one pass over the vtable
entries, producing the ordered vtable slot assignments and the thunk
functions (one of each per entry). -/
def generate_vtable_and_thunks (repr_name : String)
    (vtable_entries : List VtableItem) :
    List (String × String) × List FnDef :=
  (vtable_entries.map (fun e => (thunkStep repr_name e).1),
   vtable_entries.map (fun e => (thunkStep repr_name e).2))

/-- `generate_repr` from `repr.rs`: builds the vtable contents and thunks,
branches on the vtable style to pick the vtable field type and the
constructor value, and assembles the emitted bundle: the `#[repr(C)]` struct
with the vtable field followed by the payload field, the vtable constant
(slots plus the final `drop` slot), the constructor
`fn create(arg0: Generic) -> *mut Vtable` whose body is
`path_to_box::into_raw(path_to_box::new(ctor_val)) as *mut _`, the
destructor `unsafe drop_abi fn drop(arg0: *mut c_void)` whose body is
`let _ = path_to_box::from_raw(arg0 as *mut Repr<Generic>);`, and the thunk
methods. -/
def generate_repr (stash : StageStash) (inline_vtable : Bool)
    (path_to_box : String) (drop_abi : Option String) : ReprEmission :=
  let vt := generate_vtable_and_thunks stash.repr_name stash.vtable_items
  let vtable_contents := vt.1
  let thunk_methods := vt.2
  let vtable_field_type : RTy :=
    if inline_vtable then RTy.named stash.vtable_name
    else RTy.refStatic stash.vtable_name
  let ctor_val : RExpr :=
    if inline_vtable then
      RExpr.structLit RExpr.selfConstVtable (RExpr.var (nth_arg 0))
    else
      RExpr.structLit (RExpr.ref RExpr.selfConstVtable) (RExpr.var (nth_arg 0))
  { structDef :=
      { reprC := true
        name := stash.repr_name
        genericParam := repr_generic_name
        genericBound := stash.trait_name
        fields :=
          [{ name := vtable_field_name, ty := vtable_field_type },
           { name := value_field_name, ty := RTy.generic }] }
    vtableConst :=
      { name := vtable_const_name
        ty := stash.vtable_name
        slots := vtable_contents ++ [("drop", drop_fn_name)] }
    ctorFn :=
      { ident := create_fn_name
        unsafety := false
        abi := none
        inputs := [{ name := some (nth_arg 0), ty := RTy.generic }]
        output := RTy.ptrMut stash.vtable_name
        body :=
          RExpr.castInfer
            (RExpr.pathCall path_to_box "into_raw"
              (RExpr.pathCall path_to_box "new" ctor_val)) }
    dropFn :=
      { ident := drop_fn_name
        unsafety := true
        abi := drop_abi
        inputs := [{ name := some (nth_arg 0), ty := RTy.ptrMutCVoid }]
        output := RTy.unit
        body :=
          RExpr.letWild
            (RExpr.pathCall path_to_box "from_raw"
              (RExpr.castTo (RExpr.var (nth_arg 0))
                (RTy.ptrMutRepr stash.repr_name))) }
    thunks := thunk_methods }

/-- A token of the emitted Rust source: an identifier-or-type run, a colon,
or a comma. -/
inductive Tok where
  | ident (s : String)
  | colon
  | comma
deriving DecidableEq, Repr

/-- The token text of a type, as printed into the output stream. -/
def RTy.tokenText : RTy → String
  | .named s => s
  | .refStatic s => "&static " ++ s
  | .ptrMutCVoid => "*mut ::core::ffi::c_void"
  | .ptrMut s => "*mut " ++ s
  | .ptrMutRepr s => "*mut " ++ s ++ "<" ++ repr_generic_name ++ ">"
  | .generic => repr_generic_name
  | .unit => "()"

/-- The token serialization of a `syn::BareFnArg` (its `ToTokens`
implementation): when the argument has a name, it prints as
`name : type`; otherwise just the type. -/
def BareFnArg.toTokens (a : BareFnArg) : List Tok :=
  match a.name with
  | some n => [Tok.ident n, Tok.colon, Tok.ident a.ty.tokenText]
  | none => [Tok.ident a.ty.tokenText]

/-- The tokens the `quote!` repetition `#(#thunk_call_args)*` of `repr.rs`
line 140 emits between the parentheses of the thunk's forwarding call: the
serializations of the bare-function arguments concatenated with NO
separator. -/
def emittedCallArgTokens (args : List BareFnArg) : List Tok :=
  (args.map BareFnArg.toTokens).flatten

/-- The tokens emitted between the parentheses of a generated function
body's forwarding call (and `[]` for the non-thunk bodies, which contain no
method call). -/
def RExpr.callArgTokens : RExpr → List Tok
  | .payloadMethodCall _ _ args => emittedCallArgTokens args
  | _ => []

/-- The token list of a plain comma-separated argument list made of the
given identifiers alone — what a well-formed forwarding call `m(arg1, ...,
argk)` would contain between its parentheses. -/
def plainArgListTokens (names : List String) : List Tok :=
  match names with
  | [] => []
  | [n] => [Tok.ident n]
  | n :: rest => Tok.ident n :: Tok.comma :: plainArgListTokens rest

/-- Scenario A of the spec: the single method `speak(receiver, volume: byte)
-> bool`, with the non-receiver parameter unnamed (the interface description
supplies parameters "excluding implicit naming"). -/
def speak_item : VtableItem :=
  { name := "speak"
    inputs :=
      [{ name := none, ty := RTy.named "Self" },
       { name := none, ty := RTy.named "byte" }]
    output := RTy.named "bool"
    abi := none
    unsafety := false }

/-- The stash for Scenario A. -/
def scenarioA_stash : StageStash :=
  { repr_name := "ReprForSpeak"
    vtable_name := "SpeakVtable"
    trait_name := "Speak"
    vtable_items := [speak_item] }

/-- Scenario B of the spec, first method: `poke()` (receiver only). -/
def poke_item : VtableItem :=
  { name := "poke"
    inputs := [{ name := none, ty := RTy.named "Self" }]
    output := RTy.unit
    abi := none
    unsafety := false }

/-- Scenario B of the spec, second method: `prod(count: int32)`. -/
def prod_item : VtableItem :=
  { name := "prod"
    inputs :=
      [{ name := none, ty := RTy.named "Self" },
       { name := none, ty := RTy.named "int32" }]
    output := RTy.unit
    abi := none
    unsafety := false }

/-- The stash for Scenario B: methods `poke` then `prod`. -/
def scenarioB_stash : StageStash :=
  { repr_name := "ReprForPokeProd"
    vtable_name := "PokeProdVtable"
    trait_name := "PokeProd"
    vtable_items := [poke_item, prod_item] }

/-- A method with two non-receiver parameters,
`m2(receiver, a: byte, b: int32)`, used to exhibit the separator-free
argument interpolation. -/
def two_arg_item : VtableItem :=
  { name := "m2"
    inputs :=
      [{ name := none, ty := RTy.named "Self" },
       { name := none, ty := RTy.named "byte" },
       { name := none, ty := RTy.named "int32" }]
    output := RTy.unit
    abi := none
    unsafety := false }

/-- A stash whose single method has two non-receiver parameters. -/
def twoArg_stash : StageStash :=
  { repr_name := "ReprForTwo"
    vtable_name := "TwoVtable"
    trait_name := "Two"
    vtable_items := [two_arg_item] }

/-- The slot assignment a vtable entry produces is the pair of its method
name and the corresponding thunk name. -/
lemma thunkStep_fst (r : String) (e : VtableItem) :
    (thunkStep r e).1 = (e.name, thunk_name_of e.name) := rfl

/-- The thunk generated for a vtable entry is named after the method. -/
lemma thunkStep_snd_ident (r : String) (e : VtableItem) :
    ((thunkStep r e).2).ident = thunk_name_of e.name := rfl

/-- Every generated thunk carries the `unsafe` marker (`make_unsafe` is
applied before `into_signature`). -/
lemma thunkStep_snd_unsafety (r : String) (e : VtableItem) :
    ((thunkStep r e).2).unsafety = true := rfl

/-- Extracting the functions from a list of function items gives back the
functions. -/
lemma filterMap_fnItem_map (l : List FnDef) :
    l.filterMap ((fun i =>
      match i with
      | .fnItem f => some f
      | .constItem _ => none) ∘ ImplItem.fnItem) = l := by
  induction l with
  | nil => rfl
  | cons a t ih => simp [Function.comp, List.filterMap_cons, ih]

/-- A list of function items contains no constant item. -/
lemma filterMap_constItem_map (l : List FnDef) :
    l.filterMap ((fun i =>
      match i with
      | .constItem c => some c
      | .fnItem _ => none) ∘ ImplItem.fnItem) = [] := by
  induction l with
  | nil => rfl
  | cons a t ih => simp [Function.comp, List.filterMap_cons, ih]

/-- The generated functions are the constructor, the destructor, and the
thunks, in emission order. -/
lemma fnItems_eq (em : ReprEmission) :
    em.fnItems = em.ctorFn :: em.dropFn :: em.thunks := by
  simp [ReprEmission.fnItems, ReprEmission.implItems, List.filterMap_cons,
    filterMap_fnItem_map]

/-- The only constant item of the `impl` block is the vtable constant. -/
lemma constItems_eq (em : ReprEmission) :
    em.constItems = [em.vtableConst] := by
  simp [ReprEmission.constItems, ReprEmission.implItems, List.filterMap_cons,
    filterMap_constItem_map]

/-- Claim C2: for an input interface with n method descriptors, the
dispatch-table initializer emitted by `generate_repr` has exactly n+1
slots, and the last slot is the destructor slot `drop`, assigned to the
generated drop function. -/
theorem vtable_has_n_plus_one_slots_and_drop_last
    (stash : StageStash) (inline_vtable : Bool) (path_to_box : String)
    (drop_abi : Option String) :
    (generate_repr stash inline_vtable path_to_box drop_abi).vtableConst.slots.length
        = stash.vtable_items.length + 1 ∧
    (generate_repr stash inline_vtable path_to_box drop_abi).vtableConst.slots.getLast?
        = some ("drop", drop_fn_name) := by
  constructor
  · simp [generate_repr, generate_vtable_and_thunks]
  · simp [generate_repr, generate_vtable_and_thunks, List.getLast?_concat]

/-- Claim C3: slot order equals input method order — for every i below the
number of methods, slot i of the emitted dispatch-table initializer assigns
the slot named after method i to the thunk generated for method i, and the
i-th emitted thunk is that thunk. -/
theorem vtable_slot_order_matches_method_order
    (stash : StageStash) (inline_vtable : Bool) (path_to_box : String)
    (drop_abi : Option String) (i : Nat) (h : i < stash.vtable_items.length) :
    (generate_repr stash inline_vtable path_to_box drop_abi).vtableConst.slots[i]?
        = some ((stash.vtable_items[i]).name,
                thunk_name_of (stash.vtable_items[i]).name) ∧
    ((generate_repr stash inline_vtable path_to_box drop_abi).thunks[i]?.map
        (fun f => f.ident))
        = some (thunk_name_of (stash.vtable_items[i]).name) := by
  constructor
  · simp [generate_repr, generate_vtable_and_thunks, List.getElem?_append,
      List.getElem?_map, List.getElem?_eq_getElem, h, thunkStep_fst]
  · simp [generate_repr, generate_vtable_and_thunks, List.getElem?_map,
      List.getElem?_eq_getElem h, thunkStep_snd_ident]

/-- Claim C3 witness: at Scenario B, slot 0 is `poke` assigned to the thunk
generated for `poke`. -/
theorem vtable_slot_order_witness :
    0 < scenarioB_stash.vtable_items.length ∧
    (generate_repr scenarioB_stash true "Box" none).vtableConst.slots[0]?
        = some ("poke", thunk_name_of "poke") :=
  ⟨by decide,
   (vtable_slot_order_matches_method_order scenarioB_stash true "Box" none 0
      (by decide)).1⟩

/-- Claim C4: the representation struct's first-field type is decided
exactly by the inline-vtable switch — the concrete vtable type when the
vtable is inlined, the reference-to-static type otherwise — and the two
types are distinct. -/
theorem first_field_type_decided_by_inline_switch
    (stash : StageStash) (path_to_box : String) (drop_abi : Option String) :
    (generate_repr stash true path_to_box drop_abi).structDef.fields.head?
        = some { name := vtable_field_name, ty := RTy.named stash.vtable_name } ∧
    (generate_repr stash false path_to_box drop_abi).structDef.fields.head?
        = some { name := vtable_field_name,
                 ty := RTy.refStatic stash.vtable_name } ∧
    RTy.named stash.vtable_name ≠ RTy.refStatic stash.vtable_name := by
  refine ⟨by simp [generate_repr], by simp [generate_repr], fun hcontra => ?_⟩
  cases hcontra

/-- Claim C5: for every configuration and payload, the generated
constructor's body performs exactly one allocation call — one `new` call,
and that through the configured box path — initializes the vtable field with
a copy of the vtable constant in embedded mode and a reference to it in
shared mode, initializes the payload field with the constructor's single
payload parameter, and returns the allocation converted to a raw pointer
(`into_raw`, then the pointer cast). -/
theorem ctor_single_allocation
    (stash : StageStash) (inline_vtable : Bool) (path_to_box : String)
    (drop_abi : Option String) :
    (generate_repr stash inline_vtable path_to_box drop_abi).ctorFn.body
        = RExpr.castInfer
            (RExpr.pathCall path_to_box "into_raw"
              (RExpr.pathCall path_to_box "new"
                (RExpr.structLit
                  (if inline_vtable then RExpr.selfConstVtable
                   else RExpr.ref RExpr.selfConstVtable)
                  (RExpr.var (nth_arg 0))))) ∧
    (generate_repr stash inline_vtable path_to_box drop_abi).ctorFn.body.countCallsNamed
        "new" = 1 ∧
    (generate_repr stash inline_vtable path_to_box drop_abi).ctorFn.body.countCalls
        path_to_box "new" = 1 ∧
    (generate_repr stash inline_vtable path_to_box drop_abi).ctorFn.inputs
        = [{ name := some (nth_arg 0), ty := RTy.generic }] ∧
    (generate_repr stash inline_vtable path_to_box drop_abi).ctorFn.ident
        = create_fn_name := by
  cases inline_vtable <;>
    simp [generate_repr, generate_vtable_and_thunks, RExpr.countCallsNamed,
      RExpr.countCalls]

/-- Claim C6: the generated destructor's body reinterprets the erased
pointer back to the concrete representation type and hands it to exactly one
`from_raw` call through the same configured box path the constructor
allocates through; its whole body is that single reclamation, bound to `_`
and hence dropped (payload teardown runs as part of that drop and nothing
else in the body touches the payload again). -/
theorem drop_reclaims_allocation_once
    (stash : StageStash) (inline_vtable : Bool) (path_to_box : String)
    (drop_abi : Option String) :
    (generate_repr stash inline_vtable path_to_box drop_abi).dropFn.body
        = RExpr.letWild
            (RExpr.pathCall path_to_box "from_raw"
              (RExpr.castTo (RExpr.var (nth_arg 0))
                (RTy.ptrMutRepr stash.repr_name))) ∧
    (generate_repr stash inline_vtable path_to_box drop_abi).dropFn.body.countCalls
        path_to_box "from_raw" = 1 ∧
    (generate_repr stash inline_vtable path_to_box drop_abi).dropFn.body.countCallsNamed
        "from_raw" = 1 ∧
    (generate_repr stash inline_vtable path_to_box drop_abi).ctorFn.body.countCalls
        path_to_box "new" = 1 := by
  cases inline_vtable <;>
    simp [generate_repr, generate_vtable_and_thunks, RExpr.countCallsNamed,
      RExpr.countCalls]

/-- Claim C7: the representation struct has exactly two fields in fixed
order — the vtable field first, the payload field second — and is emitted
`#[repr(C)]` (no reordering, C layout), which is what lets the constructor
return the representation allocation cast to a vtable pointer: its declared
return type is a pointer to the vtable type while the allocation is of the
representation type. -/
theorem repr_struct_two_fields_fixed_order
    (stash : StageStash) (inline_vtable : Bool) (path_to_box : String)
    (drop_abi : Option String) :
    (generate_repr stash inline_vtable path_to_box drop_abi).structDef.reprC
        = true ∧
    (generate_repr stash inline_vtable path_to_box drop_abi).structDef.fields
        = [{ name := vtable_field_name,
             ty := if inline_vtable then RTy.named stash.vtable_name
                   else RTy.refStatic stash.vtable_name },
           { name := value_field_name, ty := RTy.generic }] ∧
    (generate_repr stash inline_vtable path_to_box drop_abi).ctorFn.output
        = RTy.ptrMut stash.vtable_name ∧
    (∃ inner,
      (generate_repr stash inline_vtable path_to_box drop_abi).ctorFn.body
          = RExpr.castInfer
              (RExpr.pathCall path_to_box "into_raw"
                (RExpr.pathCall path_to_box "new" inner))) := by
  cases inline_vtable <;>
    simp [generate_repr, generate_vtable_and_thunks]

/-- Claim C8: embedded mode and shared mode produce bundles that differ only
in the representation struct's first-field type (and the corresponding
constructor initializer): the thunks, the payload field, the field names,
the remaining struct attributes, the vtable constant, the destructor and the
constructor signature all coincide, while the first-field types differ. -/
theorem modes_differ_only_in_first_field
    (stash : StageStash) (path_to_box : String) (drop_abi : Option String) :
    (generate_repr stash true path_to_box drop_abi).thunks
        = (generate_repr stash false path_to_box drop_abi).thunks ∧
    (generate_repr stash true path_to_box drop_abi).structDef.fields.tail
        = (generate_repr stash false path_to_box drop_abi).structDef.fields.tail ∧
    (generate_repr stash true path_to_box drop_abi).structDef.fields.tail
        = [{ name := value_field_name, ty := RTy.generic }] ∧
    (generate_repr stash true path_to_box drop_abi).structDef.fields.map
        FieldDef.name
        = (generate_repr stash false path_to_box drop_abi).structDef.fields.map
            FieldDef.name ∧
    { (generate_repr stash true path_to_box drop_abi).structDef with
        fields := [] }
        = { (generate_repr stash false path_to_box drop_abi).structDef with
              fields := [] } ∧
    (generate_repr stash true path_to_box drop_abi).vtableConst
        = (generate_repr stash false path_to_box drop_abi).vtableConst ∧
    (generate_repr stash true path_to_box drop_abi).dropFn
        = (generate_repr stash false path_to_box drop_abi).dropFn ∧
    (generate_repr stash true path_to_box drop_abi).ctorFn.toSignature
        = (generate_repr stash false path_to_box drop_abi).ctorFn.toSignature ∧
    (generate_repr stash true path_to_box drop_abi).structDef.fields.head?.map
        FieldDef.ty
        ≠ (generate_repr stash false path_to_box drop_abi).structDef.fields.head?.map
            FieldDef.ty := by
  refine ⟨rfl, rfl, by simp [generate_repr], rfl, rfl, rfl, rfl, rfl, ?_⟩
  simp [generate_repr]

/-- Claim C9: the emitted bundle contains exactly one vtable-instance
definition per generation (hence one per concrete payload type, since the
`impl` block is generic over the payload parameter bound by the trait): it
is the first `impl` item, an immutable Rust `const` of the vtable type — so
it is created once and never mutated — and the shared-mode constructor
initializes every handle's vtable field with a reference to it (the
embedded-mode constructor with a copy of it). -/
theorem single_immutable_vtable_instance
    (stash : StageStash) (inline_vtable : Bool) (path_to_box : String)
    (drop_abi : Option String) :
    (generate_repr stash inline_vtable path_to_box drop_abi).constItems.length
        = 1 ∧
    (generate_repr stash inline_vtable path_to_box drop_abi).constItems
        = [(generate_repr stash inline_vtable path_to_box drop_abi).vtableConst] ∧
    (generate_repr stash inline_vtable path_to_box drop_abi).implItems.head?
        = some (ImplItem.constItem
            (generate_repr stash inline_vtable path_to_box drop_abi).vtableConst) ∧
    (generate_repr stash inline_vtable path_to_box drop_abi).vtableConst.name
        = vtable_const_name ∧
    (generate_repr stash inline_vtable path_to_box drop_abi).vtableConst.ty
        = stash.vtable_name ∧
    (generate_repr stash false path_to_box drop_abi).ctorFn.body
        = RExpr.castInfer
            (RExpr.pathCall path_to_box "into_raw"
              (RExpr.pathCall path_to_box "new"
                (RExpr.structLit (RExpr.ref RExpr.selfConstVtable)
                  (RExpr.var (nth_arg 0))))) ∧
    (generate_repr stash true path_to_box drop_abi).ctorFn.body
        = RExpr.castInfer
            (RExpr.pathCall path_to_box "into_raw"
              (RExpr.pathCall path_to_box "new"
                (RExpr.structLit RExpr.selfConstVtable
                  (RExpr.var (nth_arg 0))))) := by
  refine ⟨?_, ?_, ?_, rfl, rfl, rfl, rfl⟩
  · rw [constItems_eq]
    rfl
  · rw [constItems_eq]
  · rfl

/-- No generated constructor body reinterprets the erased handle pointer
(it only allocates and erases). -/
lemma ctor_body_no_repr_cast
    (stash : StageStash) (inline_vtable : Bool) (path_to_box : String)
    (drop_abi : Option String) :
    (generate_repr stash inline_vtable path_to_box drop_abi).ctorFn.body.mentionsReprCast
        = false := by
  cases inline_vtable <;> simp [generate_repr, RExpr.mentionsReprCast]

/-- Claim C10: every generated function of the emitted bundle whose body
reinterprets the erased handle pointer (casts it to a pointer to the
representation type) carries the `unsafe` marker; moreover the destructor is
emitted `unsafe` with a single `*mut c_void` parameter, and every method
thunk is `unsafe` (each vtable entry passes through `make_raw` and
`make_unsafe` before emission). -/
theorem reinterpreting_fns_carry_unsafe_marker
    (stash : StageStash) (inline_vtable : Bool) (path_to_box : String)
    (drop_abi : Option String) (f : FnDef)
    (hf : f ∈ (generate_repr stash inline_vtable path_to_box drop_abi).fnItems)
    (hr : f.body.mentionsReprCast = true) :
    f.unsafety = true ∧
    (generate_repr stash inline_vtable path_to_box drop_abi).dropFn.unsafety
        = true ∧
    (generate_repr stash inline_vtable path_to_box drop_abi).dropFn.inputs
        = [{ name := some (nth_arg 0), ty := RTy.ptrMutCVoid }] ∧
    (∀ t ∈ (generate_repr stash inline_vtable path_to_box drop_abi).thunks,
        t.unsafety = true) := by
  refine ⟨?_, rfl, rfl, ?_⟩
  · rw [fnItems_eq] at hf
    rcases List.mem_cons.mp hf with hc | hf
    · rw [hc] at hr
      rw [ctor_body_no_repr_cast] at hr
      cases hr
    rcases List.mem_cons.mp hf with hd | ht
    · rw [hd]
      rfl
    · have : f ∈ stash.vtable_items.map
          (fun e => (thunkStep stash.repr_name e).2) := by
        simpa [generate_repr, generate_vtable_and_thunks] using ht
      rcases List.mem_map.mp this with ⟨e, _, he⟩
      rw [← he]
      exact thunkStep_snd_unsafety _ _
  · intro t ht
    have : t ∈ stash.vtable_items.map
        (fun e => (thunkStep stash.repr_name e).2) := by
      simpa [generate_repr, generate_vtable_and_thunks] using ht
    rcases List.mem_map.mp this with ⟨e, _, he⟩
    rw [← he]
    exact thunkStep_snd_unsafety _ _

/-- Claim C10 witness: at Scenario A in embedded mode, the destructor is a
generated function, its body reinterprets the erased pointer, and it is
`unsafe`. -/
theorem reinterpreting_fns_carry_unsafe_marker_witness :
    (generate_repr scenarioA_stash true "Box" none).dropFn
        ∈ (generate_repr scenarioA_stash true "Box" none).fnItems ∧
    (generate_repr scenarioA_stash true "Box" none).dropFn.body.mentionsReprCast
        = true ∧
    (generate_repr scenarioA_stash true "Box" none).dropFn.unsafety = true :=
  ⟨by rw [fnItems_eq]; exact List.mem_cons_of_mem _ (List.mem_cons_self _ _),
   by decide,
   (reinterpreting_fns_carry_unsafe_marker scenarioA_stash true "Box" none
      (generate_repr scenarioA_stash true "Box" none).dropFn
      (by rw [fnItems_eq]; exact List.mem_cons_of_mem _ (List.mem_cons_self _ _))
      (by decide)).1⟩

/-- Claim C1 (code-bug evidence): at Scenario A
(`speak(receiver, volume: byte) -> bool`) the generated thunk's signature is
as the spec states (`(arg0: *mut c_void, arg1: byte) -> bool`), but the
tokens `repr.rs` line 140 emits between the parentheses of the forwarding
call are the full `BareFnArg` serializations `arg1 : byte` — not the bare
renamed parameter `arg1` the claim requires — and for a method with two
non-receiver parameters the `#(#thunk_call_args)*` repetition concatenates
the serializations with no comma separator, so the emitted call is not an
argument-list forwarding of the k parameters at all. -/
theorem thunk_call_emits_name_colon_type_tokens :
    ((generate_repr scenarioA_stash true "Box" none).thunks.map
        (fun f => f.inputs))
        = [[{ name := some (nth_arg 0), ty := RTy.ptrMutCVoid },
            { name := some (nth_arg 1), ty := RTy.named "byte" }]] ∧
    ((generate_repr scenarioA_stash true "Box" none).thunks.map
        (fun f => f.output))
        = [RTy.named "bool"] ∧
    ((generate_repr scenarioA_stash true "Box" none).thunks.map
        (fun f => f.body.callArgTokens))
        = [[Tok.ident (nth_arg 1), Tok.colon, Tok.ident "byte"]] ∧
    [Tok.ident (nth_arg 1), Tok.colon, Tok.ident "byte"]
        ≠ plainArgListTokens [nth_arg 1] ∧
    ((generate_repr twoArg_stash true "Box" none).thunks.map
        (fun f => f.body.callArgTokens))
        = [[Tok.ident (nth_arg 1), Tok.colon, Tok.ident "byte",
            Tok.ident (nth_arg 2), Tok.colon, Tok.ident "int32"]] ∧
    Tok.comma ∉
        [Tok.ident (nth_arg 1), Tok.colon, Tok.ident "byte",
         Tok.ident (nth_arg 2), Tok.colon, Tok.ident "int32"] ∧
    Tok.comma ∈ plainArgListTokens [nth_arg 1, nth_arg 2] := by
  refine ⟨rfl, rfl, rfl, by decide, rfl, by decide, by decide⟩

end ThinTraitObject
